import Mathlib

set_option maxHeartbeats 1000000
set_option linter.unusedVariables false

/-!
Verification development for the quick-lint-js diagnostic engine.

The repository ships the test suites (test-options.cpp,
test-parse-typescript-interface.cpp, test-variable-analyzer-declare.cpp)
but not the implementation translation units they exercise
(cli/options.cpp, the parser, the variable analyzer).  The definitions
below therefore model those missing components from the specification,
pinned down where the tests in the repository fix concrete behaviour.
Command-line arguments and source text are represented as `List Char`
so that every definition computes and every concrete scenario can be
settled by `decide`.
-/

/-! ## Part 1: CLI option parsing (cli/options.cpp model) -/

/-- A command-line argument, as a list of characters. -/
abbrev Arg := List Char

/-- Modelled from the spec: the `--language=<id>` identifiers accepted by
the CLI driver (spec section 6); `options.cpp` is not under src/. -/
inductive Input_File_Language
  | javascript
  | javascript_jsx
  | typescript
  | typescript_definition
  | typescript_jsx
deriving DecidableEq

/-- Modelled from the spec: the `--output-format=<...>` values (spec
section 6); `options.cpp` is not under src/. -/
inductive Output_Format
  | default_format
  | gnu_like
  | vim_qflist_json
  | emacs_lisp
deriving DecidableEq

/-- Modelled from the spec: one entry of `Options::files_to_lint`
(spec section 6, CLI surface); `options.cpp` is not under src/. -/
structure File_To_Lint where
  path : Arg
  config_file : Option Arg := none
  path_for_config_search : Option Arg := none
  language : Option Input_File_Language := none
  is_stdin : Bool := false
  vim_bufnr : Option Int := none
deriving DecidableEq

/-- Modelled from the spec: the `Options` record produced by
`parse_options` (spec section 6); `options.cpp` is not under src/. -/
structure Options where
  files_to_lint : List File_To_Lint := []
  error_unrecognized_options : List Arg := []
  warning_language_without_file : List Arg := []
  warning_vim_bufnr_without_file : List Arg := []
  has_config_file : Bool := false
  has_multiple_stdin : Bool := false
  output_format : Output_Format := .default_format
  lsp_server : Bool := false
  help : Bool := false
  version : Bool := false
  snarky : Bool := false
  print_parser_visits : Bool := false
  list_debug_apps : Bool := false
  exit_fail_on_codes : List Arg := []
deriving DecidableEq

/-- Test that the first character list is an initial segment of the second. -/
def isPfx : List Char → List Char → Bool
  | [], _ => true
  | _ :: _, [] => false
  | a :: as, b :: bs => if a = b then isPfx as bs else false

/-- Drop a given initial segment, returning the remainder when it matches. -/
def dropPfx : List Char → List Char → Option (List Char)
  | [], l => some l
  | _ :: _, [] => none
  | a :: as, b :: bs => if a = b then dropPfx as bs else none

/-- The argument `--`, which terminates flag parsing. -/
def ddName : Arg := ['-', '-']

/-- The argument `-`, denoting standard input. -/
def singleDash : Arg := ['-']

/-- The argument `--stdin`. -/
def stdinName : Arg := ['-', '-', 's', 't', 'd', 'i', 'n']

/-- The argument `-h`. -/
def helpShort : Arg := ['-', 'h']

/-- The long option `--help`. -/
def helpName : Arg := ['-', '-', 'h', 'e', 'l', 'p']

/-- Minimal abbreviation `--h` of `--help`. -/
def helpMin : Arg := ['-', '-', 'h']

/-- The argument `-v`. -/
def versionShort : Arg := ['-', 'v']

/-- The long option `--version`. -/
def versionName : Arg := ['-', '-', 'v', 'e', 'r', 's', 'i', 'o', 'n']

/-- Minimal abbreviation `--v` of `--version`. -/
def versionMin : Arg := ['-', '-', 'v']

/-- The long option `--debug-parser-visits`. -/
def debugParserVisitsName : Arg :=
  ['-', '-', 'd', 'e', 'b', 'u', 'g', '-', 'p', 'a', 'r', 's', 'e', 'r',
   '-', 'v', 'i', 's', 'i', 't', 's']

/-- Minimal abbreviation `--debug-p` of `--debug-parser-visits`. -/
def debugParserVisitsMin : Arg := ['-', '-', 'd', 'e', 'b', 'u', 'g', '-', 'p']

/-- The long option `--snarky`. -/
def snarkyName : Arg := ['-', '-', 's', 'n', 'a', 'r', 'k', 'y']

/-- The long option `--debug-apps`. -/
def debugAppsName : Arg := ['-', '-', 'd', 'e', 'b', 'u', 'g', '-', 'a', 'p', 'p', 's']

/-- The long option `--lsp-server`. -/
def lspServerName : Arg := ['-', '-', 'l', 's', 'p', '-', 's', 'e', 'r', 'v', 'e', 'r']

/-- The alias `--lsp`. -/
def lspName : Arg := ['-', '-', 'l', 's', 'p']

/-- The long option `--output-format`. -/
def outputFormatName : Arg :=
  ['-', '-', 'o', 'u', 't', 'p', 'u', 't', '-', 'f', 'o', 'r', 'm', 'a', 't']

/-- The long option `--vim-file-bufnr`. -/
def vimFileBufnrName : Arg :=
  ['-', '-', 'v', 'i', 'm', '-', 'f', 'i', 'l', 'e', '-', 'b', 'u', 'f', 'n', 'r']

/-- The long option `--config-file`. -/
def configFileName : Arg :=
  ['-', '-', 'c', 'o', 'n', 'f', 'i', 'g', '-', 'f', 'i', 'l', 'e']

/-- The long option `--path-for-config-search`. -/
def pathForConfigSearchName : Arg :=
  ['-', '-', 'p', 'a', 't', 'h', '-', 'f', 'o', 'r', '-', 'c', 'o', 'n', 'f',
   'i', 'g', '-', 's', 'e', 'a', 'r', 'c', 'h']

/-- The long option `--language`. -/
def languageName : Arg := ['-', '-', 'l', 'a', 'n', 'g', 'u', 'a', 'g', 'e']

/-- The long option `--exit-fail-on`. -/
def exitFailOnName : Arg :=
  ['-', '-', 'e', 'x', 'i', 't', '-', 'f', 'a', 'i', 'l', '-', 'o', 'n']

/-- The options of `parse_options` that take a value. -/
inductive Value_Option
  | output_format_opt
  | vim_file_bufnr_opt
  | config_file_opt
  | path_for_config_search_opt
  | language_opt
  | exit_fail_on_opt
deriving DecidableEq

/-- Name table for the value-taking options. -/
def value_options : List (Value_Option × Arg) :=
  [(.output_format_opt, outputFormatName),
   (.vim_file_bufnr_opt, vimFileBufnrName),
   (.config_file_opt, configFileName),
   (.path_for_config_search_opt, pathForConfigSearchName),
   (.language_opt, languageName),
   (.exit_fail_on_opt, exitFailOnName)]

/-- Classification of one command-line argument. -/
inductive Arg_Class
  | dash_dash
  | stdin_arg
  | flag_help
  | flag_version
  | flag_debug_parser_visits
  | flag_snarky
  | flag_debug_apps
  | flag_lsp
  | opt_with_value (o : Value_Option) (v : Arg)
  | opt_bare (o : Value_Option)
  | bad_flag
  | file_arg
deriving DecidableEq

/-- Look an argument up in the value-option table: `--opt=value` yields the
inline value, a bare `--opt` takes its value from the next argument. -/
def find_value_option : List (Value_Option × Arg) → Arg → Option Arg_Class
  | [], _ => none
  | (o, nm) :: rest, arg =>
    if arg = nm then some (.opt_bare o)
    else
      match dropPfx (nm ++ ['=']) arg with
      | some v => some (.opt_with_value o v)
      | none => find_value_option rest arg

/-- Modelled from the spec: the argument dispatch of `parse_options`
(spec section 6: prefix-matched flags such as `--debug-p` for
`--debug-parser-visits`, value options, `--`, `-`/`--stdin`, and
unrecognized flags); `options.cpp` is not under src/. -/
def classify (arg : Arg) : Arg_Class :=
  if arg = ddName then .dash_dash
  else if arg = singleDash ∨ arg = stdinName then .stdin_arg
  else if arg = helpShort ∨ (isPfx helpMin arg = true ∧ isPfx arg helpName = true) then
    .flag_help
  else if arg = versionShort ∨
      (isPfx versionMin arg = true ∧ isPfx arg versionName = true) then
    .flag_version
  else if isPfx debugParserVisitsMin arg = true ∧
      isPfx arg debugParserVisitsName = true then
    .flag_debug_parser_visits
  else if arg = snarkyName then .flag_snarky
  else if arg = debugAppsName then .flag_debug_apps
  else if arg = lspServerName ∨ arg = lspName then .flag_lsp
  else
    match find_value_option value_options arg with
    | some c => c
    | none => if isPfx singleDash arg = true then .bad_flag else .file_arg

/-- Decimal digits accumulated into a number; fails on a non-digit. -/
def decDigits : List Char → Nat → Option Nat
  | [], acc => some acc
  | c :: cs, acc =>
    if c.isDigit then decDigits cs (acc * 10 + (c.toNat - 48)) else none

/-- Modelled from the spec: integer parsing for `--vim-file-bufnr=<int>`
(spec section 6: an invalid integer is an error); `options.cpp` is not
under src/. -/
def parse_vim_bufnr : Arg → Option Int
  | [] => none
  | '-' :: cs =>
    if cs = [] then none
    else (decDigits cs 0).map (fun n => -(n : Int))
  | c :: cs => (decDigits (c :: cs) 0).map (fun n => (n : Int))

/-- Characters of the language id `javascript`. -/
def javascriptChars : Arg := ['j', 'a', 'v', 'a', 's', 'c', 'r', 'i', 'p', 't']

/-- Characters of the language id `javascript-jsx`. -/
def javascriptJsxChars : Arg := javascriptChars ++ ['-', 'j', 's', 'x']

/-- Characters of the language id `experimental-typescript`. -/
def experimentalTypescriptChars : Arg :=
  ['e', 'x', 'p', 'e', 'r', 'i', 'm', 'e', 'n', 't', 'a', 'l', '-',
   't', 'y', 'p', 'e', 's', 'c', 'r', 'i', 'p', 't']

/-- Characters of the language id `experimental-typescript-definition`. -/
def experimentalTypescriptDefinitionChars : Arg :=
  experimentalTypescriptChars ++
    ['-', 'd', 'e', 'f', 'i', 'n', 'i', 't', 'i', 'o', 'n']

/-- Characters of the language id `experimental-typescript-jsx`. -/
def experimentalTypescriptJsxChars : Arg :=
  experimentalTypescriptChars ++ ['-', 'j', 's', 'x']

/-- Modelled from the spec: mapping of `--language` values to languages
(spec section 6); an unknown id is reported as an unrecognized option
value. -/
def parse_language_value (v : Arg) : Option Input_File_Language :=
  if v = javascriptChars then some .javascript
  else if v = javascriptJsxChars then some .javascript_jsx
  else if v = experimentalTypescriptChars then some .typescript
  else if v = experimentalTypescriptDefinitionChars then some .typescript_definition
  else if v = experimentalTypescriptJsxChars then some .typescript_jsx
  else none

/-- Characters of the output format `gnu-like`. -/
def gnuLikeChars : Arg := ['g', 'n', 'u', '-', 'l', 'i', 'k', 'e']

/-- Characters of the output format `vim-qflist-json`. -/
def vimQflistJsonChars : Arg :=
  ['v', 'i', 'm', '-', 'q', 'f', 'l', 'i', 's', 't', '-', 'j', 's', 'o', 'n']

/-- Characters of the output format `emacs-lisp`. -/
def emacsLispChars : Arg := ['e', 'm', 'a', 'c', 's', '-', 'l', 'i', 's', 'p']

/-- Modelled from the spec: mapping of `--output-format` values (spec
section 6); on an unknown value the format stays the default. -/
def parse_output_format (v : Arg) : Option Output_Format :=
  if v = gnuLikeChars then some .gnu_like
  else if v = vimQflistJsonChars then some .vim_qflist_json
  else if v = emacsLispChars then some .emacs_lisp
  else none

/-- State threaded through one pass over the command line: the options
accumulated so far, the sticky `--config-file`, and the next-file-only
pending settings. -/
structure Parse_State where
  opts : Options := {}
  current_config_file : Option Arg := none
  next_path_for_config_search : Option Arg := none
  next_language : Option (Arg × Input_File_Language) := none
  next_vim_bufnr : Option (Arg × Int) := none
deriving DecidableEq

/-- The path recorded for standard input. -/
def stdinPath : Arg := ['<', 's', 't', 'd', 'i', 'n', '>']

/-- Append one file to lint: it receives the sticky config file and
consumes all pending next-file-only settings. -/
def add_file (st : Parse_State) (path : Arg) (is_stdin : Bool) : Parse_State :=
  { st with
    opts := { st.opts with
      files_to_lint := st.opts.files_to_lint ++
        [{ path := path
           config_file := st.current_config_file
           path_for_config_search := st.next_path_for_config_search
           language := st.next_language.map (·.2)
           is_stdin := is_stdin
           vim_bufnr := st.next_vim_bufnr.map (·.2) }] }
    next_path_for_config_search := none
    next_language := none
    next_vim_bufnr := none }

/-- Record an unrecognized option (or option value). -/
def add_error (st : Parse_State) (e : Arg) : Parse_State :=
  { st with
    opts := { st.opts with
      error_unrecognized_options := st.opts.error_unrecognized_options ++ [e] } }

/-- Add the standard-input pseudo-file; a second occurrence only sets
`has_multiple_stdin` and is not added again. -/
def add_stdin (st : Parse_State) : Parse_State :=
  if st.opts.files_to_lint.any (·.is_stdin) then
    { st with opts := { st.opts with has_multiple_stdin := true } }
  else add_file st stdinPath true

/-- Apply a value-taking option to the parse state. -/
def apply_value_option (o : Value_Option) (v : Arg) (st : Parse_State) :
    Parse_State :=
  match o with
  | .output_format_opt =>
    match parse_output_format v with
    | some f => { st with opts := { st.opts with output_format := f } }
    | none => add_error st v
  | .vim_file_bufnr_opt =>
    match parse_vim_bufnr v with
    | some n =>
      let st' :=
        match st.next_vim_bufnr with
        | some (old, _) =>
          { st with opts := { st.opts with
              warning_vim_bufnr_without_file :=
                st.opts.warning_vim_bufnr_without_file ++ [old] } }
        | none => st
      { st' with next_vim_bufnr := some (v, n) }
    | none => add_error st v
  | .config_file_opt =>
    { st with
      current_config_file := some v
      opts := { st.opts with has_config_file := true } }
  | .path_for_config_search_opt => { st with next_path_for_config_search := some v }
  | .language_opt =>
    match parse_language_value v with
    | some l =>
      let st' :=
        match st.next_language with
        | some (old, _) =>
          { st with opts := { st.opts with
              warning_language_without_file :=
                st.opts.warning_language_without_file ++ [old] } }
        | none => st
      { st' with next_language := some (v, l) }
    | none => add_error st v
  | .exit_fail_on_opt =>
    { st with opts := { st.opts with
        exit_fail_on_codes := st.opts.exit_fail_on_codes ++ [v] } }

/-- Add every remaining argument as a file (behaviour after `--`). -/
def push_files (st : Parse_State) (fs : List Arg) : Parse_State :=
  fs.foldl (fun s a => add_file s a false) st

/-- Close the pass: pending next-file-only settings that never found a
file become warnings. -/
def finalize (st : Parse_State) : Options :=
  let o1 :=
    match st.next_language with
    | some (v, _) =>
      { st.opts with
        warning_language_without_file := st.opts.warning_language_without_file ++ [v] }
    | none => st.opts
  match st.next_vim_bufnr with
  | some (v, _) =>
    { o1 with
      warning_vim_bufnr_without_file := o1.warning_vim_bufnr_without_file ++ [v] }
  | none => o1

/-- Modelled from the spec: the main loop of `parse_options` (spec
section 6, CLI surface); `options.cpp` is not under src/.  An
unrecognized option flag records the flag verbatim and aborts the pass,
dropping the remaining arguments (pinned by
Test_Options.invalid_option, which expects `files_to_lint` empty). -/
def parse_args (args : List Arg) (st : Parse_State) : Options :=
  match args with
  | [] => finalize st
  | arg :: rest =>
    match classify arg with
    | .dash_dash => finalize (push_files st rest)
    | .stdin_arg => parse_args rest (add_stdin st)
    | .flag_help => parse_args rest { st with opts := { st.opts with help := true } }
    | .flag_version =>
      parse_args rest { st with opts := { st.opts with version := true } }
    | .flag_debug_parser_visits =>
      parse_args rest { st with opts := { st.opts with print_parser_visits := true } }
    | .flag_snarky =>
      parse_args rest { st with opts := { st.opts with snarky := true } }
    | .flag_debug_apps =>
      parse_args rest { st with opts := { st.opts with list_debug_apps := true } }
    | .flag_lsp =>
      parse_args rest { st with opts := { st.opts with lsp_server := true } }
    | .opt_with_value o v => parse_args rest (apply_value_option o v st)
    | .opt_bare o =>
      match rest with
      | v :: rest2 => parse_args rest2 (apply_value_option o v st)
      | [] => finalize (add_error st arg)
    | .bad_flag => (add_error st arg).opts
    | .file_arg => parse_args rest (add_file st arg false)

/-- Modelled from the spec: `parse_options(argc, argv)` (spec section 6);
`options.cpp` is not under src/. -/
def parse_options (args : List Arg) : Options :=
  parse_args args {}

/-- Modelled from the spec: `get_language(path, language_override)` —
with no override every path (including `<stdin>`) lints as
javascript-jsx, and an explicit override wins (pinned by
Test_Options.get_language_from_path and get_language_overwritten);
`options.cpp` is not under src/. -/
def get_language (path : Arg) (override : Option Input_File_Language) :
    Input_File_Language :=
  match override with
  | some l => l
  | none => .javascript_jsx

/-! ## Part 2: lexer and TypeScript-interface parser model -/

/-- The character `{` (written by code point to keep source text plain). -/
def lcub : Char := Char.ofNat 123

/-- The character `}` (written by code point). -/
def rcub : Char := Char.ofNat 125

/-- Identifier start characters (ASCII subset used by the tests). -/
def isIdentStartChar (c : Char) : Bool := c.isAlpha || c = '_' || c = '$'

/-- Identifier continuation characters. -/
def isIdentContChar (c : Char) : Bool := isIdentStartChar c || c.isDigit

/-- Value of one hexadecimal digit. -/
def hexVal (c : Char) : Option Nat :=
  if '0' ≤ c ∧ c ≤ '9' then some (c.toNat - 48)
  else if 'a' ≤ c ∧ c ≤ 'f' then some (c.toNat - 87)
  else if 'A' ≤ c ∧ c ≤ 'F' then some (c.toNat - 55)
  else none

/-- Token kinds of the lexer model. -/
inductive Token_Kind
  | identifier
  | left_curly
  | right_curly
  | left_paren
  | right_paren
  | semicolon
  | comma
  | star
  | other
deriving DecidableEq

/-- A lexed token: kind, decoded name (for identifiers), half-open byte
range, whether a newline preceded it (for ASI), and whether the
identifier contained a unicode escape. -/
structure Token where
  kind : Token_Kind
  name : List Char := []
  b : Nat
  e : Nat
  newline_before : Bool := false
  has_escape : Bool := false
deriving DecidableEq

/-- Scan the hex digits of a braced escape `\u{...}` up to the closing
brace; returns the value, the number of characters consumed (digits plus
closing brace), and the rest. -/
def scanHexBrace : List Char → Nat → Nat → Option (Nat × Nat × List Char)
  | [], _, _ => none
  | c :: rest, acc, n =>
    if c = rcub then some (acc, n + 1, rest)
    else
      match hexVal c with
      | some d => scanHexBrace rest (acc * 16 + d) (n + 1)
      | none => none

/-- Scan exactly four hex digits of a `\uXXXX` escape. -/
def scanHex4 : List Char → Option (Nat × List Char)
  | a :: b :: c :: d :: rest =>
    match hexVal a, hexVal b, hexVal c, hexVal d with
    | some x, some y, some z, some w => some (((x * 16 + y) * 16 + z) * 16 + w, rest)
    | _, _, _, _ => none
  | _ => none

/-- Modelled from the spec: identifier scanning with unicode escapes
(spec section 4.1: identifiers are decoded before any keyword match, so
an escape like a braced hex escape compares equal to the plain
keyword); the lexer sources are not under src/.  Returns the decoded
name, whether an escape occurred, the end position, and the rest. -/
def lexIdent (fuel : Nat) (cs : List Char) (pos : Nat) (acc : List Char)
    (esc : Bool) : List Char × Bool × Nat × List Char :=
  match fuel with
  | 0 => (acc.reverse, esc, pos, cs)
  | fuel + 1 =>
    match cs with
    | '\\' :: 'u' :: c :: rest =>
      if c = lcub then
        match scanHexBrace rest 0 0 with
        | some (v, n, rest2) =>
          lexIdent fuel rest2 (pos + 3 + n) (Char.ofNat v :: acc) true
        | none => (acc.reverse, esc, pos, cs)
      else
        match scanHex4 (c :: rest) with
        | some (v, rest2) => lexIdent fuel rest2 (pos + 6) (Char.ofNat v :: acc) true
        | none => (acc.reverse, esc, pos, cs)
    | c :: rest =>
      if isIdentContChar c then lexIdent fuel rest (pos + 1) (c :: acc) esc
      else (acc.reverse, esc, pos, cs)
    | [] => (acc.reverse, esc, pos, cs)

/-- Modelled from the spec: the token loop of the lexer (spec section
4.1: whitespace skipping, newline recording for ASI, identifiers with
escapes, single-character punctuators); the lexer sources are not under
src/. -/
def lexToks (fuel : Nat) (cs : List Char) (pos : Nat) (nl : Bool) : List Token :=
  match fuel with
  | 0 => []
  | fuel + 1 =>
    match cs with
    | [] => []
    | c :: rest =>
      if c = ' ' ∨ c = '\t' then lexToks fuel rest (pos + 1) nl
      else if c = '\n' ∨ c = '\r' then lexToks fuel rest (pos + 1) true
      else if isIdentStartChar c = true ∨ c = '\\' then
        match lexIdent (cs.length + 1) cs pos [] false with
        | (name, esc, pos2, rest2) =>
          if name = [] then
            { kind := .other, name := [c], b := pos, e := pos + 1,
              newline_before := nl } :: lexToks fuel rest (pos + 1) false
          else
            { kind := .identifier, name := name, b := pos, e := pos2,
              newline_before := nl, has_escape := esc } :: lexToks fuel rest2 pos2 false
      else
        let k : Token_Kind :=
          if c = lcub then .left_curly
          else if c = rcub then .right_curly
          else if c = '(' then .left_paren
          else if c = ')' then .right_paren
          else if c = ';' then .semicolon
          else if c = ',' then .comma
          else if c = '*' then .star
          else .other
        { kind := k, name := [c], b := pos, e := pos + 1, newline_before := nl } ::
          lexToks fuel rest (pos + 1) false

/-- Tokenize a whole source text. -/
def tokenize (cs : List Char) : List Token := lexToks (cs.length + 1) cs 0 false

/-- Declaration kinds carried by `visit_variable_declaration`. -/
inductive Variable_Kind
  | varK
  | letK
  | constK
  | functionK
  | classK
  | interfaceK
  | namespaceK
deriving DecidableEq

/-- Parser visitor events (spec section 3, restricted to the events the
interface grammar emits). -/
inductive Parse_Visit
  | visit_variable_declaration (name : List Char) (kind : Variable_Kind)
  | visit_enter_interface_scope
  | visit_exit_interface_scope
  | visit_enter_function_scope
  | visit_exit_function_scope
  | visit_property_declaration (name : List Char)
  | visit_end_of_module
deriving DecidableEq

/-- Diagnostic kinds of the interface parser model. -/
inductive Diag_Type
  | Diag_TypeScript_Interfaces_Not_Allowed_In_JavaScript
  | Diag_Unclosed_Interface_Block
  | Diag_Interface_Methods_Cannot_Be_Async
  | Diag_Interface_Properties_Cannot_Be_Static
  | Diag_Interface_Methods_Cannot_Be_Generators
  | Diag_Missing_Semicolon_After_Interface_Method
  | Diag_Missing_Semicolon_After_Field
  | Diag_Missing_Body_For_TypeScript_Interface
deriving DecidableEq

/-- A diagnostic record: kind plus the primary half-open byte range. -/
structure Diag where
  kind : Diag_Type
  b : Nat
  e : Nat
deriving DecidableEq

/-- What a parse produces: the visit stream, the diagnostics in emission
order, and the property-declaration names (the spy visitor's
`property_declarations`). -/
structure Parse_Result where
  visits : List Parse_Visit := []
  diags : List Diag := []
  props : List (List Char) := []
deriving DecidableEq

/-- Pending member modifiers (`async`, `static`, `*`) with their ranges. -/
structure Member_Mods where
  async_mod : Option (Nat × Nat) := none
  static_mod : Option (Nat × Nat) := none
  star_mod : Option (Nat × Nat) := none
deriving DecidableEq

/-- Emit the diagnostics for the pending member modifiers: interface
methods cannot be async, interface properties cannot be static,
interface methods cannot be generators (spec section 4.2). -/
def flush_mods (m : Member_Mods) : List Diag :=
  (match m.async_mod with
   | some (b, e) => [⟨.Diag_Interface_Methods_Cannot_Be_Async, b, e⟩]
   | none => []) ++
  (match m.static_mod with
   | some (b, e) => [⟨.Diag_Interface_Properties_Cannot_Be_Static, b, e⟩]
   | none => []) ++
  (match m.star_mod with
   | some (b, e) => [⟨.Diag_Interface_Methods_Cannot_Be_Generators, b, e⟩]
   | none => [])

/-- Skip a parenthesized parameter list, consuming through the closing
parenthesis (or everything, at end of file). -/
def skipParens : List Token → List Token
  | [] => []
  | t :: rest => if t.kind = .right_paren then rest else skipParens rest

/-- Characters of the contextual keyword `async`. -/
def asyncChars : List Char := ['a', 's', 'y', 'n', 'c']

/-- Characters of the contextual keyword `static`. -/
def staticChars : List Char := ['s', 't', 'a', 't', 'i', 'c']

/-- Characters of the keyword `interface`. -/
def interfaceChars : List Char := ['i', 'n', 't', 'e', 'r', 'f', 'a', 'c', 'e']

/-- Missing-semicolon check after a member: a semicolon, comma, closing
brace, end of file, or a newline before the next token (ASI) is fine;
anything else gets the given diagnostic (spec section 4.2, ASI
algorithm). -/
def member_semicolon_diags (dk : Diag_Type) : List Token → List Diag
  | [] => []
  | t :: _ =>
    if t.newline_before = true ∨ t.kind = .right_curly ∨ t.kind = .semicolon ∨
        t.kind = .comma then []
    else [⟨dk, t.b, t.b⟩]

/-- Decide whether `async` before this token list acts as a modifier: it
does only when the next token starts a member name (identifier or `*`)
and no newline intervenes — a newline activates ASI and `async` becomes
an identifier (spec sections 4.1-4.2). -/
def async_is_modifier : List Token → Bool
  | [] => false
  | u :: _ =>
    if u.newline_before = true then false
    else if u.kind = .identifier ∨ u.kind = .star then true
    else false

/-- Decide whether `static` before this token list acts as a modifier
(next token starts a member name). -/
def static_is_modifier : List Token → Bool
  | [] => false
  | u :: _ => if u.kind = .identifier ∨ u.kind = .star then true else false

/-- Test whether the first token is a left parenthesis. -/
def head_is_lparen : List Token → Bool
  | [] => false
  | t :: _ => if t.kind = .left_paren then true else false

/-- Modelled from the spec: the interface-body member loop (spec section
4.2: members separated by semicolon, comma, or ASI; `static`, `async`,
and `*` modifiers are each reported; an unterminated body at end of
file reports `Unclosed_Interface_Block` labeled at the `{`); the parser
sources are not under src/. -/
def parseMembers (fuel : Nat) (bracePos : Nat) (mods : Member_Mods)
    (toks : List Token) : Parse_Result × List Token :=
  match fuel with
  | 0 => ({}, toks)
  | fuel + 1 =>
    match toks with
    | [] =>
      ({ diags := flush_mods mods ++
           [⟨.Diag_Unclosed_Interface_Block, bracePos, bracePos + 1⟩] }, [])
    | t :: rest =>
      if t.kind = .right_curly then ({ diags := flush_mods mods }, rest)
      else if t.kind = .semicolon ∨ t.kind = .comma then
        let r := parseMembers fuel bracePos {} rest
        ({ r.1 with diags := flush_mods mods ++ r.1.diags }, r.2)
      else if t.kind = .star then
        parseMembers fuel bracePos { mods with star_mod := some (t.b, t.e) } rest
      else if t.kind = .identifier ∧ t.name = asyncChars ∧ t.has_escape = false ∧
          async_is_modifier rest = true then
        parseMembers fuel bracePos { mods with async_mod := some (t.b, t.e) } rest
      else if t.kind = .identifier ∧ t.name = staticChars ∧ t.has_escape = false ∧
          static_is_modifier rest = true then
        parseMembers fuel bracePos { mods with static_mod := some (t.b, t.e) } rest
      else if t.kind = .identifier then
        if head_is_lparen rest = true then
          let rest3 := skipParens rest.tail
          let r := parseMembers fuel bracePos {} rest3
          ({ visits := .visit_property_declaration t.name ::
               .visit_enter_function_scope :: .visit_exit_function_scope :: r.1.visits
             diags := flush_mods mods ++
               member_semicolon_diags .Diag_Missing_Semicolon_After_Interface_Method
                 rest3 ++ r.1.diags
             props := t.name :: r.1.props }, r.2)
        else
          let r := parseMembers fuel bracePos {} rest
          ({ visits := .visit_property_declaration t.name :: r.1.visits
             diags := flush_mods mods ++
               member_semicolon_diags .Diag_Missing_Semicolon_After_Field rest ++
               r.1.diags
             props := t.name :: r.1.props }, r.2)
      else parseMembers fuel bracePos mods rest

/-- Modelled from the spec: the `interface` statement (spec section 4.2:
name, body in braces; a missing body reports
`Missing_Body_For_TypeScript_Interface`; in non-TypeScript mode the
statement additionally reports
`TypeScript_Interfaces_Not_Allowed_In_JavaScript` but is parsed the
same and its events still emitted, the diagnostic labeling the
`interface` keyword as fixed by
Test_Parse_TypeScript_Interface.not_supported_in_vanilla_javascript);
the parser sources are not under src/. -/
def parseInterface (fuel : Nat) (ts : Bool) (kwB kwE : Nat) (toks : List Token) :
    Parse_Result × List Token :=
  let jsDiag : List Diag :=
    if ts then []
    else [⟨.Diag_TypeScript_Interfaces_Not_Allowed_In_JavaScript, kwB, kwE⟩]
  match toks with
  | nameTok :: lb :: rest2 =>
    if nameTok.kind = .identifier ∧ lb.kind = .left_curly then
      let m := parseMembers fuel lb.b {} rest2
      ({ visits := .visit_variable_declaration nameTok.name .interfaceK ::
           .visit_enter_interface_scope :: m.1.visits ++ [.visit_exit_interface_scope]
         diags := jsDiag ++ m.1.diags
         props := m.1.props }, m.2)
    else if nameTok.kind = .identifier then
      ({ visits := [.visit_variable_declaration nameTok.name .interfaceK,
           .visit_enter_interface_scope, .visit_exit_interface_scope]
         diags := jsDiag ++
           [⟨.Diag_Missing_Body_For_TypeScript_Interface, kwB, nameTok.e⟩] },
       lb :: rest2)
    else ({ diags := jsDiag }, nameTok :: lb :: rest2)
  | [nameTok] =>
    if nameTok.kind = .identifier then
      ({ visits := [.visit_variable_declaration nameTok.name .interfaceK,
           .visit_enter_interface_scope, .visit_exit_interface_scope]
         diags := jsDiag ++
           [⟨.Diag_Missing_Body_For_TypeScript_Interface, kwB, nameTok.e⟩] }, [])
    else ({ diags := jsDiag }, [nameTok])
  | [] => ({ diags := jsDiag }, [])

/-- Modelled from the spec: the module statement loop (spec section 4.2:
statements parsed until end of file; error recovery skips a token and
keeps the visitor stream well formed; `end_of_module` closes the
stream); the parser sources are not under src/. -/
def parseModule (fuel : Nat) (ts : Bool) (toks : List Token) : Parse_Result :=
  match fuel with
  | 0 => { visits := [.visit_end_of_module] }
  | fuel + 1 =>
    match toks with
    | [] => { visits := [.visit_end_of_module] }
    | t :: rest =>
      if t.kind = .identifier ∧ t.name = interfaceChars ∧ t.has_escape = false then
        let r := parseInterface fuel ts t.b t.e rest
        let r2 := parseModule fuel ts r.2
        { visits := r.1.visits ++ r2.visits
          diags := r.1.diags ++ r2.diags
          props := r.1.props ++ r2.props }
      else parseModule fuel ts rest

/-- Modelled from the spec: `parse_and_visit_module` over a source text
with the `typescript` parser option; the parser sources are not under
src/. -/
def parse_and_visit_module (src : List Char) (typescript : Bool) : Parse_Result :=
  let toks := tokenize src
  parseModule (toks.length + 1) typescript toks

/-- Scope kinds tracked by the balance checker. -/
inductive Scope_Kind
  | interface_scope
  | function_scope
deriving DecidableEq

/-- Run a visit stream against a scope stack: every `enter` pushes, every
`exit` must pop a matching kind; `none` means the stream is unbalanced
or incorrectly nested. -/
def runStack : List Parse_Visit → List Scope_Kind → Option (List Scope_Kind)
  | [], st => some st
  | .visit_enter_interface_scope :: vs, st => runStack vs (.interface_scope :: st)
  | .visit_exit_interface_scope :: vs, .interface_scope :: st => runStack vs st
  | .visit_exit_interface_scope :: _, _ => none
  | .visit_enter_function_scope :: vs, st => runStack vs (.function_scope :: st)
  | .visit_exit_function_scope :: vs, .function_scope :: st => runStack vs st
  | .visit_exit_function_scope :: _, _ => none
  | .visit_variable_declaration n k :: vs, st => runStack vs st
  | .visit_property_declaration n :: vs, st => runStack vs st
  | .visit_end_of_module :: vs, st => runStack vs st

/-- Characters of the first-character-escaped form of a keyword, as built
by the test helper `escape_first_character_in_keyword`: the first
character becomes a braced two-digit hex escape. -/
def hexDigitChar (n : Nat) : Char :=
  if n < 10 then Char.ofNat (48 + n) else Char.ofNat (87 + n)

/-- Modelled from the spec: the test-support helper
`escape_first_character_in_keyword` (quick-lint-js test support, not
under src/), which rewrites the first character of a keyword into a
braced hex escape. -/
def escape_first_character_in_keyword : List Char → List Char
  | [] => []
  | c :: rest =>
    '\\' :: 'u' :: lcub :: hexDigitChar (c.toNat / 16) ::
      hexDigitChar (c.toNat % 16) :: rcub :: rest

/-- The ECMAScript reserved words together with the strict-mode reserved
words (spec section 4.1, keyword classification). -/
def reserved_keywords : List (List Char) :=
  [("await").data, ("break").data, ("case").data, ("catch").data,
   ("class").data, ("const").data, ("continue").data, ("debugger").data,
   ("default").data, ("delete").data, ("do").data, ("else").data,
   ("enum").data, ("export").data, ("extends").data, ("false").data,
   ("finally").data, ("for").data, ("function").data, ("if").data,
   ("implements").data, ("import").data, ("in").data, ("instanceof").data,
   ("interface").data, ("let").data, ("new").data, ("null").data,
   ("package").data, ("private").data, ("protected").data, ("public").data,
   ("return").data, ("static").data, ("super").data, ("switch").data,
   ("this").data, ("throw").data, ("true").data, ("try").data,
   ("typeof").data, ("var").data, ("void").data, ("while").data,
   ("with").data, ("yield").data]

/-- Build the source text `interface I { <member>(); }` around a member
name. -/
def interface_member_src (member : List Char) : List Char :=
  ("interface I ").data ++ [lcub] ++ (" ").data ++ member ++ ("(); ").data ++ [rcub]

/-- The source text `interface I {}`. -/
def src_interface_empty : List Char := ("interface I ").data ++ [lcub, rcub]

/-- The source text `interface I { ` (trailing space, no closing brace). -/
def src_interface_unclosed : List Char := ("interface I ").data ++ [lcub] ++ (" ").data

/-- The source text `interface I { async static *m(); }`. -/
def src_async_static_star : List Char :=
  ("interface I ").data ++ [lcub] ++ (" async static *m(); ").data ++ [rcub]

/-- The source text `interface I { async` newline `m(); }`. -/
def src_asi_async : List Char :=
  ("interface I ").data ++ [lcub] ++ (" async").data ++ ['\n'] ++ ("m(); ").data ++ [rcub]

/-- The source text of the escaped-constructor test, `interface A {`
newline `  \u{63}onstructor();}`. -/
def src_escaped_constructor : List Char :=
  ("interface A ").data ++ [lcub] ++ ['\n'] ++ ("  ").data ++
    escape_first_character_in_keyword (("constructor").data) ++ ("();").data ++ [rcub]

/-! ## Part 3: variable analyzer model (declare semantics) -/

/-- Events consumed by the variable analyzer model: declarations carry
their kind and whether they are `declare`d (directly or transitively
through a `declare namespace`); uses carry whether they occur inside a
declare context (a `declare` declaration's heritage clause or body). -/
inductive An_Event
  | decl (name : List Char) (kind : Variable_Kind) (is_declare : Bool)
  | use (name : List Char) (in_declare_context : Bool)
  | enter_scope
  | exit_scope
  | end_of_module
deriving DecidableEq

/-- A declaration recorded in a scope, with its event position. -/
structure An_Decl where
  name : List Char
  kind : Variable_Kind
  is_declare : Bool
  pos : Nat
deriving DecidableEq

/-- A pending use recorded in a scope, with its event position. -/
structure An_Use where
  name : List Char
  in_declare_context : Bool
  pos : Nat
deriving DecidableEq

/-- One scope of the analyzer: its declarations and its pending uses. -/
structure An_Scope where
  decls : List An_Decl := []
  uses : List An_Use := []
deriving DecidableEq

/-- Diagnostics emitted by the analyzer model. -/
inductive An_Diag
  | Diag_Variable_Used_Before_Declaration (name : List Char)
  | Diag_Use_Of_Undeclared_Variable (name : List Char)
deriving DecidableEq

/-- Find the declaration of a name in a scope's declaration list. -/
def lookupDecl : List An_Decl → List Char → Option An_Decl
  | [], _ => none
  | d :: ds, n => if d.name = n then some d else lookupDecl ds n

/-- Kinds whose uses before the declaration are reported (let, const,
class — spec section 4.3, hoisting rules). -/
def isBlockScoped : Variable_Kind → Bool
  | .letK => true
  | .constK => true
  | .classK => true
  | _ => false

/-- Modelled from the spec: diagnostics for one resolved use (spec
section 4.3: a use textually before a let/const/class declaration is
reported, unless the declaration is `declare`d or the use itself sits
in a declare context); the analyzer sources are not under src/. -/
def use_diags (d : An_Decl) (u : An_Use) : List An_Diag :=
  if u.pos < d.pos ∧ isBlockScoped d.kind = true ∧ d.is_declare = false ∧
      u.in_declare_context = false then
    [.Diag_Variable_Used_Before_Declaration u.name]
  else []

/-- Resolve pending uses against a scope's declarations at scope exit,
returning diagnostics and the uses that must propagate outward. -/
def resolve_uses (decls : List An_Decl) : List An_Use → List An_Diag × List An_Use
  | [] => ([], [])
  | u :: us =>
    let r := resolve_uses decls us
    match lookupDecl decls u.name with
    | some d => (use_diags d u ++ r.1, r.2)
    | none => (r.1, u :: r.2)

/-- Close a scope into its parent: resolve its uses, hand unresolved
uses to the parent (spec section 4.3: use-resolution is deferred until
end of scope so forward references resolve). -/
def close_scope (sc parent : An_Scope) : An_Scope × List An_Diag :=
  let r := resolve_uses sc.decls sc.uses
  ({ parent with uses := parent.uses ++ r.2 }, r.1)

/-- Close the module scope: unresolved uses fall back to the global set,
otherwise they are undeclared (spec section 4.3, resolution
algorithm). -/
def close_module (sc : An_Scope) (globals : List (List Char)) : List An_Diag :=
  let r := resolve_uses sc.decls sc.uses
  r.1 ++ r.2.foldr
    (fun u acc =>
      (if u.name ∈ globals then [] else [.Diag_Use_Of_Undeclared_Variable u.name]) ++ acc)
    []

/-- Close a scope and then every enclosing scope down to and including
the module scope. -/
def close_all_from (sc : An_Scope) : List An_Scope → List (List Char) → List An_Diag
  | [], globals => close_module sc globals
  | parent :: more, globals =>
    let r := close_scope sc parent
    r.2 ++ close_all_from r.1 more globals

/-- Close every open scope down to and including the module scope. -/
def close_all (stack : List An_Scope) (globals : List (List Char)) : List An_Diag :=
  match stack with
  | [] => []
  | sc :: rest => close_all_from sc rest globals

/-- Modelled from the spec: the event loop of the variable analyzer
(spec section 4.3); the analyzer sources are not under src/. -/
def analyze_events (events : List An_Event) (stack : List An_Scope) (pos : Nat)
    (globals : List (List Char)) : List An_Diag :=
  match events with
  | [] => []
  | e :: rest =>
    match e with
    | .decl n k dcl =>
      match stack with
      | sc :: up =>
        analyze_events rest
          ({ sc with decls := sc.decls ++ [⟨n, k, dcl, pos⟩] } :: up) (pos + 1) globals
      | [] => analyze_events rest [] (pos + 1) globals
    | .use n dctx =>
      match stack with
      | sc :: up =>
        analyze_events rest
          ({ sc with uses := sc.uses ++ [⟨n, dctx, pos⟩] } :: up) (pos + 1) globals
      | [] => analyze_events rest [] (pos + 1) globals
    | .enter_scope => analyze_events rest ({} :: stack) (pos + 1) globals
    | .exit_scope =>
      match stack with
      | sc :: parent :: more =>
        let r := close_scope sc parent
        r.2 ++ analyze_events rest (r.1 :: more) (pos + 1) globals
      | _ => analyze_events rest stack (pos + 1) globals
    | .end_of_module => close_all stack globals

/-- Run the analyzer on an event stream with a global set. -/
def analyze (events : List An_Event) (globals : List (List Char)) : List An_Diag :=
  analyze_events events [{}] 0 globals

/-- Events the parser emits for `C; declare class C {}` (use of C, then
the `declare` class declaration with its class scope). -/
def events_use_before_declare_class : List An_Event :=
  [.use (("C").data) false, .decl (("C").data) .classK true,
   .enter_scope, .exit_scope, .end_of_module]

/-- Events the parser emits for `a; declare const a;`. -/
def events_use_before_declare_const : List An_Event :=
  [.use (("a").data) false, .decl (("a").data) .constK true, .end_of_module]

/-- Events the parser emits for
`declare class Derived extends Base {}  class Base {}`: the heritage
use of Base happens inside the declare context of Derived. -/
def events_declare_class_heritage : List An_Event :=
  [.decl (("Derived").data) .classK true, .enter_scope,
   .use (("Base").data) true, .exit_scope,
   .decl (("Base").data) .classK false, .enter_scope, .exit_scope,
   .end_of_module]

/-- Events the parser emits for
`declare namespace ns { class Derived extends Base {} } class Base {}`:
declarations inside the `declare namespace` inherit the declare flag,
and the heritage use of Base is in a declare context. -/
def events_declare_namespace_forward : List An_Event :=
  [.decl (("ns").data) .namespaceK true, .enter_scope,
   .decl (("Derived").data) .classK true, .enter_scope,
   .use (("Base").data) true, .exit_scope,
   .exit_scope,
   .decl (("Base").data) .classK false, .enter_scope, .exit_scope,
   .end_of_module]

/-- Events the parser emits for `C; class C {}` (no `declare`): the
contrasting stream that must be diagnosed. -/
def events_use_before_plain_class : List An_Event :=
  [.use (("C").data) false, .decl (("C").data) .classK false,
   .enter_scope, .exit_scope, .end_of_module]

/-! ## Derived definitions used by the theorems -/

/-- A plain (non-flag) file argument: nonempty and not starting with `-`. -/
def is_plain_file_arg : Arg → Bool
  | [] => false
  | c :: _ => if c = '-' then false else true

/-- The `File_To_Lint` entry produced for a plain file argument when no
next-file-only settings are pending. -/
def plain_file (cfg : Option Arg) (a : Arg) : File_To_Lint :=
  { path := a, config_file := cfg }

/-! ## Helper lemmas: scope balance of the visit stream -/

theorem runStack_append (a b : List Parse_Visit) (st : List Scope_Kind) :
    runStack (a ++ b) st = (runStack a st).bind (fun st2 => runStack b st2) := by
  induction a generalizing st with
  | nil => simp [runStack]
  | cons v vs ih =>
    cases v with
    | visit_enter_interface_scope => simp [runStack, ih]
    | visit_exit_interface_scope =>
      cases st with
      | nil => simp [runStack]
      | cons sk st2 =>
        cases sk with
        | interface_scope => simp [runStack, ih]
        | function_scope => simp [runStack]
    | visit_enter_function_scope => simp [runStack, ih]
    | visit_exit_function_scope =>
      cases st with
      | nil => simp [runStack]
      | cons sk st2 =>
        cases sk with
        | interface_scope => simp [runStack]
        | function_scope => simp [runStack, ih]
    | visit_variable_declaration n k => simp [runStack, ih]
    | visit_property_declaration n => simp [runStack, ih]
    | visit_end_of_module => simp [runStack, ih]

theorem parseMembers_balanced (fuel : Nat) :
    ∀ (bracePos : Nat) (mods : Member_Mods) (toks : List Token) (st : List Scope_Kind),
      runStack (parseMembers fuel bracePos mods toks).1.visits st = some st := by
  induction fuel with
  | zero => intro bracePos mods toks st; simp [parseMembers, runStack]
  | succ fuel ih =>
    intro bracePos mods toks st
    cases toks with
    | nil => simp [parseMembers, runStack]
    | cons t rest =>
      simp only [parseMembers]
      split_ifs with hcur hsep hstar hasync hstatic hident hlp
      · simp [runStack]
      · simp [ih]
      · simp [ih]
      · simp [ih]
      · simp [ih]
      · simp [runStack, ih]
      · simp [runStack, ih]
      · simp [ih]

theorem parseInterface_balanced (fuel : Nat) (ts : Bool) (kwB kwE : Nat)
    (toks : List Token) (st : List Scope_Kind) :
    runStack (parseInterface fuel ts kwB kwE toks).1.visits st = some st := by
  cases toks with
  | nil => simp [parseInterface, runStack]
  | cons nameTok rest =>
    cases rest with
    | nil =>
      simp only [parseInterface]
      split_ifs <;> simp [runStack]
    | cons lb rest2 =>
      simp only [parseInterface]
      split_ifs <;> simp [runStack, runStack_append, parseMembers_balanced]

theorem parseModule_balanced (fuel : Nat) :
    ∀ (ts : Bool) (toks : List Token) (st : List Scope_Kind),
      runStack (parseModule fuel ts toks).visits st = some st := by
  induction fuel with
  | zero => intro ts toks st; simp [parseModule, runStack]
  | succ fuel ih =>
    intro ts toks st
    cases toks with
    | nil => simp [parseModule, runStack]
    | cons t rest =>
      simp only [parseModule]
      split_ifs with hif
      · simp [runStack_append, parseInterface_balanced, ih]
      · simp [ih]

/-! ## Helper lemmas: command-line argument dispatch -/

theorem classify_config_eq (p : Arg) :
    classify (configFileName ++ '=' :: p) = .opt_with_value .config_file_opt p := rfl

theorem classify_vim_eq (v : Arg) :
    classify (vimFileBufnrName ++ '=' :: v) = .opt_with_value .vim_file_bufnr_opt v := rfl

theorem classify_dash_dash : classify ddName = .dash_dash := rfl

theorem classify_single_dash : classify singleDash = .stdin_arg := rfl

theorem classify_stdin_name : classify stdinName = .stdin_arg := rfl

theorem classify_plain (c : Char) (cs : List Char) (hc : ¬ c = '-') :
    classify (c :: cs) = .file_arg := by
  have hc2 : ¬ ('-' = c) := fun h => hc h.symm
  simp [classify, find_value_option, value_options, dropPfx, isPfx,
        ddName, singleDash, stdinName, helpShort, helpMin, helpName,
        versionShort, versionMin, versionName, debugParserVisitsMin,
        debugParserVisitsName, snarkyName, debugAppsName, lspServerName,
        lspName, outputFormatName, vimFileBufnrName, configFileName,
        pathForConfigSearchName, languageName, exitFailOnName, hc, hc2]

theorem classify_is_plain (a : Arg) (h : is_plain_file_arg a = true) :
    classify a = .file_arg := by
  match a with
  | [] => simp [is_plain_file_arg] at h
  | c :: cs =>
    simp only [is_plain_file_arg] at h
    split_ifs at h
    exact classify_plain c cs (by assumption)

theorem parse_args_file_step (a : Arg) (rest : List Arg) (st : Parse_State)
    (h : classify a = .file_arg) :
    parse_args (a :: rest) st = parse_args rest (add_file st a false) := by
  rw [parse_args, h]

theorem parse_args_config_step (p : Arg) (rest : List Arg) (st : Parse_State) :
    parse_args ((configFileName ++ '=' :: p) :: rest) st =
      parse_args rest { st with current_config_file := some p,
                                opts := { st.opts with has_config_file := true } } := by
  rw [parse_args, classify_config_eq]
  rfl

theorem parse_args_stdin_step (sig : Arg) (rest : List Arg) (st : Parse_State)
    (hsig : classify sig = .stdin_arg)
    (hno : st.opts.files_to_lint.any (fun f => f.is_stdin) = false) :
    parse_args (sig :: rest) st = parse_args rest (add_file st stdinPath true) := by
  rw [parse_args, hsig]
  simp [add_stdin, hno]

theorem parse_args_dash_dash_step (rest : List Arg) (st : Parse_State) :
    parse_args (ddName :: rest) st = finalize (push_files st rest) := by
  rw [parse_args, classify_dash_dash]

theorem push_files_cons (st : Parse_State) (a : Arg) (fs : List Arg) :
    push_files st (a :: fs) = push_files (add_file st a false) fs := rfl

theorem parse_args_plain_files (fs : List Arg) (rest : List Arg) (st : Parse_State)
    (h : ∀ a ∈ fs, is_plain_file_arg a = true) :
    parse_args (fs ++ rest) st = parse_args rest (push_files st fs) := by
  induction fs generalizing st with
  | nil => simp [push_files]
  | cons a fs ih =>
    rw [List.cons_append,
        parse_args_file_step a _ st (classify_is_plain a (h a (by simp))),
        ih _ (fun b hb => h b (by simp [hb])), push_files_cons]

theorem push_files_desc (fs : List Arg) (st : Parse_State)
    (h1 : st.next_path_for_config_search = none)
    (h2 : st.next_language = none)
    (h3 : st.next_vim_bufnr = none) :
    push_files st fs =
      { st with opts := { st.opts with
          files_to_lint := st.opts.files_to_lint ++
            fs.map (plain_file st.current_config_file) } } := by
  induction fs generalizing st with
  | nil => simp [push_files]
  | cons a fs ih =>
    rw [push_files_cons, ih _ rfl rfl rfl]
    simp [add_file, plain_file, h1, h2, h3]

theorem finalize_clean (st : Parse_State)
    (h2 : st.next_language = none) (h3 : st.next_vim_bufnr = none) :
    finalize st = st.opts := by
  simp [finalize, h2, h3]

theorem any_false {α : Type} (l : List α) : l.any (fun _ => false) = false := by
  induction l <;> simp [*]

theorem config_file_plain (cfg : Option Arg) :
    ((fun f => f.config_file) ∘ plain_file cfg) = fun _ => cfg := by
  funext a
  simp [plain_file]

/-! ## Claim theorems -/

/-- C1 (counterexample): for `interface I {}` parsed with typescript off,
the single emitted diagnostic's primary range is the `interface` keyword
`[0, 9)` — as fixed by the nine-caret expectation of
Test_Parse_TypeScript_Interface.not_supported_in_vanilla_javascript —
and not the whole text `interface I {}`, which would be `[0, 14)`. -/
theorem c1_interface_js_range_counterexample :
    (parse_and_visit_module src_interface_empty false).diags.map (fun d => (d.b, d.e)) =
      [(0, 9)]
    ∧ ((0, 9) : Nat × Nat) ≠ (0, 14) := by decide

/-- C1 (amended): for `interface I {}` with typescript off, the parser
emits the same visit sequence as with typescript on (declaration of I as
interface, enter/exit interface scope, end of module) and exactly one
Diag_TypeScript_Interfaces_Not_Allowed_In_JavaScript whose primary range
covers the `interface` keyword. -/
theorem c1_interface_in_javascript_amended :
    (parse_and_visit_module src_interface_empty false).visits =
      (parse_and_visit_module src_interface_empty true).visits
    ∧ (parse_and_visit_module src_interface_empty false).visits =
        [.visit_variable_declaration (("I").data) .interfaceK,
         .visit_enter_interface_scope, .visit_exit_interface_scope,
         .visit_end_of_module]
    ∧ (parse_and_visit_module src_interface_empty false).diags =
        [⟨.Diag_TypeScript_Interfaces_Not_Allowed_In_JavaScript, 0, 9⟩]
    ∧ (parse_and_visit_module src_interface_empty true).diags = [] := by decide

/-- C2: a variable declared with the `declare` modifier can be used
before its textual declaration with no diagnostic: generally, for any
name and declaration kind, a use followed by a `declare` declaration
yields no diagnostics; and the concrete streams for
`C; declare class C {}`, `a; declare const a;`,
`declare class Derived extends Base {}  class Base {}`, and
`declare namespace ns { class Derived extends Base {} } class Base {}`
all yield the empty diagnostic list, while the plain (non-declare)
`C; class C {}` is diagnosed. -/
theorem c2_declare_forward_references :
    (∀ (name : List Char) (k : Variable_Kind),
      analyze [.use name false, .decl name k true, .end_of_module] [] = [])
    ∧ analyze events_use_before_declare_class [] = []
    ∧ analyze events_use_before_declare_const [] = []
    ∧ analyze events_declare_class_heritage [] = []
    ∧ analyze events_declare_namespace_forward [] = []
    ∧ analyze events_use_before_plain_class [] =
        [.Diag_Variable_Used_Before_Declaration (("C").data)] := by
  refine ⟨fun name k => ?_, by decide, by decide, by decide, by decide, by decide⟩
  simp [analyze, analyze_events, close_all, close_all_from, close_module,
        resolve_uses, lookupDecl, use_diags]

/-- C3: for every parse (any source text, either typescript option) the
enter/exit scope events are balanced and correctly nested — running the
visit stream against an empty scope stack succeeds and ends with an
empty stack — and in particular `interface I { ` (unterminated) emits
one Diag_Unclosed_Interface_Block labeled at the `{` (range `[12, 13)`)
with enter_interface_scope matched by exit_interface_scope before
end_of_module. -/
theorem c3_scope_events_balanced :
    (∀ (src : List Char) (typescript : Bool),
      runStack (parse_and_visit_module src typescript).visits [] = some [])
    ∧ parse_and_visit_module src_interface_unclosed true =
        { visits := [.visit_variable_declaration (("I").data) .interfaceK,
            .visit_enter_interface_scope, .visit_exit_interface_scope,
            .visit_end_of_module]
          diags := [⟨.Diag_Unclosed_Interface_Block, 12, 13⟩]
          props := [] } :=
  ⟨fun src typescript => parseModule_balanced _ _ _ _, by decide⟩

/-- C4: parsing `interface I { async static *m(); }` with typescript on
produces exactly the three diagnostics Interface_Methods_Cannot_Be_Async
on `async` `[14, 19)`, Interface_Properties_Cannot_Be_Static on `static`
`[20, 26)`, and Interface_Methods_Cannot_Be_Generators on `*`
`[27, 28)`, compared as a set (list permutation). -/
theorem c4_async_static_generator_diags :
    List.Perm (parse_and_visit_module src_async_static_star true).diags
      [⟨.Diag_Interface_Methods_Cannot_Be_Async, 14, 19⟩,
       ⟨.Diag_Interface_Properties_Cannot_Be_Static, 20, 26⟩,
       ⟨.Diag_Interface_Methods_Cannot_Be_Generators, 27, 28⟩] := by decide

/-- C5: in an interface body a newline after `async` activates ASI and
`async` becomes an identifier: `interface I { async` newline `m(); }`
parses with no diagnostics and declares the two properties `async` and
`m`. -/
theorem c5_asi_after_async :
    (parse_and_visit_module src_asi_async true).diags = []
    ∧ (parse_and_visit_module src_asi_async true).props = [asyncChars, ("m").data] := by
  decide

/-- C6: keyword recognition happens after full identifier decoding of
unicode escapes — for every reserved keyword, an interface member whose
name is written with the first character escaped parses with no
diagnostics and the property declaration carries the decoded keyword as
its name; the concrete escaped-constructor input from the test parses
with no diagnostics as well. -/
theorem c6_keyword_escape_members (kw : List Char) (h : kw ∈ reserved_keywords) :
    ((parse_and_visit_module
        (interface_member_src (escape_first_character_in_keyword kw)) true).diags = []
     ∧ (parse_and_visit_module
        (interface_member_src (escape_first_character_in_keyword kw)) true).props = [kw])
    ∧ ((parse_and_visit_module src_escaped_constructor true).diags = []
       ∧ (parse_and_visit_module src_escaped_constructor true).props =
           [("constructor").data]) := by
  have hall : ∀ x ∈ reserved_keywords,
      (parse_and_visit_module
          (interface_member_src (escape_first_character_in_keyword x)) true).diags = []
      ∧ (parse_and_visit_module
          (interface_member_src (escape_first_character_in_keyword x)) true).props =
          [x] := by decide
  exact ⟨hall kw h, by decide, by decide⟩

/-- C6 witness: the reserved keyword `if` is in the list and its escaped
member form parses cleanly with property name `if`. -/
theorem c6_keyword_escape_members_witness :
    (("if").data ∈ reserved_keywords)
    ∧ (((parse_and_visit_module
          (interface_member_src (escape_first_character_in_keyword (("if").data)))
          true).diags = []
        ∧ (parse_and_visit_module
          (interface_member_src (escape_first_character_in_keyword (("if").data)))
          true).props = [("if").data])
       ∧ ((parse_and_visit_module src_escaped_constructor true).diags = []
          ∧ (parse_and_visit_module src_escaped_constructor true).props =
              [("constructor").data])) :=
  ⟨by decide, c6_keyword_escape_members (("if").data) (by decide)⟩

/-- C7: a `--vim-file-bufnr` value that is not a valid integer makes
parse_options append exactly the bad value string to
error_unrecognized_options (with the following file still processed),
and a bare `--vim-file-bufnr` with no value appends the literal option
string itself. -/
theorem c7_invalid_vim_file_bufnr (v : Arg) (h : parse_vim_bufnr v = none) :
    (parse_options [vimFileBufnrName ++ '=' :: v,
        ("file.js").data]).error_unrecognized_options = [v]
    ∧ (parse_options [vimFileBufnrName]).error_unrecognized_options =
        [vimFileBufnrName] := by
  constructor
  · have hf : classify (("file.js").data) = .file_arg := by decide
    simp [parse_options, parse_args, classify_vim_eq, hf, apply_value_option, h,
          add_error, add_file, finalize]
  · decide

/-- C7 witness: the value `garbage` is not a valid integer and is
recorded verbatim. -/
theorem c7_invalid_vim_file_bufnr_witness :
    parse_vim_bufnr (("garbage").data) = none
    ∧ ((parse_options [vimFileBufnrName ++ '=' :: ("garbage").data,
          ("file.js").data]).error_unrecognized_options = [("garbage").data]
       ∧ (parse_options [vimFileBufnrName]).error_unrecognized_options =
           [vimFileBufnrName]) :=
  ⟨by decide, c7_invalid_vim_file_bufnr (("garbage").data) (by decide)⟩

/-- C8: the --config-file option is sticky — every file argument after a
`--config-file=<path>` (plain files, `-`/`--stdin`, and files after
`--`) receives that config file until another --config-file overrides
it, files before it have no config file, and has_config_file is
recorded. -/
theorem c8_config_file_sticky (fs1 fs2 fs3 : List Arg) (p q sig : Arg)
    (h1 : ∀ a ∈ fs1, is_plain_file_arg a = true)
    (h2 : ∀ a ∈ fs2, is_plain_file_arg a = true)
    (hsig : sig = singleDash ∨ sig = stdinName) :
    (parse_options (fs1 ++ (configFileName ++ '=' :: p) ::
        (fs2 ++ sig :: (configFileName ++ '=' :: q) :: ddName :: fs3))).files_to_lint.map
        (fun f => f.config_file) =
      fs1.map (fun _ => none) ++ (fs2.map (fun _ => some p) ++ some p ::
        fs3.map (fun _ => some q))
    ∧ (parse_options (fs1 ++ (configFileName ++ '=' :: p) ::
        (fs2 ++ sig :: (configFileName ++ '=' :: q) :: ddName :: fs3))).has_config_file =
        true := by
  have hsigc : classify sig = .stdin_arg := by
    rcases hsig with rfl | rfl
    · exact classify_single_dash
    · exact classify_stdin_name
  unfold parse_options
  rw [parse_args_plain_files fs1 _ _ h1,
      push_files_desc fs1 _ rfl rfl rfl,
      parse_args_config_step,
      parse_args_plain_files fs2 _ _ h2,
      push_files_desc fs2 _ rfl rfl rfl,
      parse_args_stdin_step _ _ _ hsigc
        (by simp [List.any_append, List.any_map, Function.comp, plain_file, any_false]),
      parse_args_config_step,
      parse_args_dash_dash_step,
      push_files_desc fs3 _ rfl rfl rfl,
      finalize_clean _ rfl rfl]
  constructor
  · simp [add_file, plain_file, List.map_append, List.map_map, config_file_plain]
  · simp [add_file]

/-- C8 witness: a concrete command line
`one.js --config-file=one.config two.js - --config-file=two.config -- -x.js`
assigns no config to one.js, one.config to two.js and stdin, and
two.config to the file after `--`. -/
theorem c8_config_file_sticky_witness :
    (∀ a ∈ [("one.js").data], is_plain_file_arg a = true)
    ∧ (∀ a ∈ [("two.js").data], is_plain_file_arg a = true)
    ∧ ((parse_options ([("one.js").data] ++ (configFileName ++ '=' :: ("one.config").data) ::
          ([("two.js").data] ++ singleDash ::
            (configFileName ++ '=' :: ("two.config").data) :: ddName ::
            [("-x.js").data]))).files_to_lint.map (fun f => f.config_file) =
        [("one.js").data].map (fun _ => none) ++
          ([("two.js").data].map (fun _ => some (("one.config").data)) ++
            some (("one.config").data) ::
              [("-x.js").data].map (fun _ => some (("two.config").data)))
       ∧ (parse_options ([("one.js").data] ++ (configFileName ++ '=' :: ("one.config").data) ::
          ([("two.js").data] ++ singleDash ::
            (configFileName ++ '=' :: ("two.config").data) :: ddName ::
            [("-x.js").data]))).has_config_file = true) :=
  ⟨by decide, by decide,
   c8_config_file_sticky [("one.js").data] [("two.js").data] [("-x.js").data]
     (("one.config").data) (("two.config").data) singleDash
     (by decide) (by decide) (Or.inl rfl)⟩

/-- C9: with no language override get_language returns javascript-jsx
for every input path (including `<stdin>`, `.js`, `.jsx`, `.txt`), and
an explicit override is returned regardless of the path. -/
theorem c9_get_language_default_and_override (path : Arg) (l : Input_File_Language) :
    get_language path none = .javascript_jsx ∧ get_language path (some l) = l :=
  ⟨rfl, rfl⟩

/-- C10: an unrecognized option flag (one the dispatch does not match,
such as `--option-does-not-exist` or `-version`) followed by a file path
is recorded verbatim in error_unrecognized_options and parse_options
returns an empty files_to_lint, dropping the following file argument. -/
theorem c10_unrecognized_option_drops_files (flag file : Arg)
    (h : classify flag = .bad_flag) :
    (parse_options [flag, file]).error_unrecognized_options = [flag]
    ∧ (parse_options [flag, file]).files_to_lint = [] := by
  simp [parse_options, parse_args, h, add_error]

/-- C10 witness: `--option-does-not-exist foo.js` records the flag and
lints no files. -/
theorem c10_unrecognized_option_drops_files_witness :
    classify (("--option-does-not-exist").data) = .bad_flag
    ∧ ((parse_options [("--option-does-not-exist").data,
          ("foo.js").data]).error_unrecognized_options =
        [("--option-does-not-exist").data]
       ∧ (parse_options [("--option-does-not-exist").data,
          ("foo.js").data]).files_to_lint = []) :=
  ⟨by decide,
   c10_unrecognized_option_drops_files (("--option-does-not-exist").data)
     (("foo.js").data) (by decide)⟩
